import Mathlib

/-!
# Verification of the receipt-ingestion / ledger-sync pipeline

Shallow embedding of the Python sources (`azure_functions.py`,
`email_processing_service.py`) of the Xero receipt-processing repository.
Money amounts are modelled as rationals (`ℚ`), Python `None`-able values as
`Option`, and the outcomes of external calls (document intelligence, Cosmos
DB, the Xero HTTP API, blob storage) as explicit environment parameters so
that every control-flow branch of the source is represented.
-/

/-! ## ExtractionNormalizer: `extract_receipt_data_from_blob`

The Document Intelligence result is modelled by the typed fields the code
reads.  A `RawItem` is the `value_object` of one element of the `Items`
field (elements without a `value_object` are skipped by the source before
any field is read, so they are not represented).  Each `Option` field is
`some` exactly when the corresponding attribute (`value_string`,
`value_number`, `value_currency.amount`, `value_date`) is present. -/

structure RawItem where
  description : Option String
  quantity : Option ℚ
  totalPrice : Option ℚ
deriving DecidableEq

/-- The `item_data` dict built by the item loop: `description` may be absent,
`quantity` defaults to 1, `unit_amount` may be absent. -/
structure ItemData where
  description : Option String
  quantity : ℚ
  unit_amount : Option ℚ
deriving DecidableEq

/-- Python truthiness of `item_data.get("description")`: absent key or empty
string are falsy. -/
def truthyStr : Option String → Bool
  | none => false
  | some s => !(s == "")

/-- Python truthiness of `item_data.get("unit_amount")`: absent key or the
number `0.0` are falsy. -/
def truthyRat : Option ℚ → Bool
  | none => false
  | some q => decide (q ≠ 0)

def build_item_data (it : RawItem) : ItemData :=
  { description := it.description
    quantity := it.quantity.getD 1
    unit_amount := it.totalPrice }

/-- The guard `if item_data.get("description") and item_data.get("unit_amount")`
deciding whether a line item is appended to `items`. -/
def keep_item (d : ItemData) : Bool :=
  truthyStr d.description && truthyRat d.unit_amount

structure RawReceiptFields where
  merchantName : Option String
  vendorName : Option String
  transactionDate : Option String
  total : Option ℚ
  items : List RawItem
deriving DecidableEq

structure ReceiptData where
  merchant : String
  date : String
  total : ℚ
  tax : ℚ
  items : List ItemData
deriving DecidableEq

/-- Body of `extract_receipt_data_from_blob` after a successful
`begin_analyze_document` call (the `raw_result` passthrough field is omitted).
`0.1` is the exact rational 1/10. -/
def normalize_fields (now_iso : String) (f : RawReceiptFields) : ReceiptData :=
  let vendor := match f.merchantName <|> f.vendorName with
    | some s => s.trim
    | none => "Unknown Vendor"
  let total_amount := f.total.getD 0
  let items := (f.items.map build_item_data).filter keep_item
  let tax_amount : ℚ := if 0 < total_amount then total_amount * (1 / 10) else 0
  { merchant := vendor
    date := match f.transactionDate with
      | some d => if d = "" then now_iso else d
      | none => now_iso
    total := total_amount
    tax := tax_amount
    items := items }

/-- `extract_receipt_data_from_blob`: `analysis = none` models the analysis
call raising, which the broad `except` converts to `None`. -/
def extract_receipt_data_from_blob (now_iso : String) (analysis : Option RawReceiptFields) :
    Option ReceiptData :=
  match analysis with
  | none => none
  | some f => some (normalize_fields now_iso f)

/-- The specification-side operation `round(x, 2)`: round to two decimal
places (half away from zero on ties, which is irrelevant at the inputs used
here). -/
def round2 (q : ℚ) : ℚ := ((round (q * 100) : ℤ) : ℚ) / 100

/-! ## IngestionStateMachine: `process_receipt_blob` and its callees

The pipeline's externally visible behaviour is modelled as an ordered trace
of side effects plus the successive states of the single Receipt document a
run touches.  The outcomes of the fallible external calls are supplied by a
`PipelineEnv`.  Receipt documents carry the fields the claims are about;
the remaining stored keys (id, tenantId, filename, merchant, date, total,
tax, items, timestamps) are written once at creation and never consulted by
the pipeline's control flow, so they are omitted from `ReceiptDoc`. -/

structure ReceiptDoc where
  status : String
  xeroInvoiceId : Option String
  xeroStatus : Option String
deriving DecidableEq

/-- Tenant configuration as read by `get_tenant` (only
`settings['processingEnabled']` steers the pipeline). -/
structure Tenant where
  processingEnabled : Bool
deriving DecidableEq

inductive Event
  | receiptCreated
  | movedToProcessing
  | movedToComplete
  | xeroInfoWritten (invoiceId : Option String) (xeroStatus : String)
  | statusUpdateCalled (status : String)
  | statusRecorded (status : String)
  | usageUpdateCalled
  | usageRecorded
  | uploadDeleted
deriving DecidableEq

/-- Outcomes of the external calls made during one `process_receipt_blob`
run.  A `false`/`none` value means the corresponding call raised or returned
an empty result, exactly as handled by the source's `try`/`except` blocks. -/
structure PipelineEnv where
  now_iso : String
  /-- `blob.read()` succeeded (a raise is caught by the outer handler). -/
  blob_read_ok : Bool
  /-- `get_tenant` result (`none`: missing document or read raised). -/
  tenant : Option Tenant
  /-- Document Intelligence analysis outcome fed to
  `extract_receipt_data_from_blob`. -/
  analysis : Option RawReceiptFields
  /-- `receipts_container.create_item` in `store_receipt_data` succeeded
  (its raise propagates to the outer handler). -/
  store_ok : Bool
  /-- `get_xero_integration` found a config. -/
  xero_configured : Bool
  /-- `get_xero_access_token` result (`""` is falsy in the source's guard). -/
  access_token : Option String
  /-- `create_or_get_xero_contact` result. -/
  contact_result : Option String
  /-- `create_xero_invoice` result. -/
  invoice_result : Option String
  /-- An unexpected exception inside `process_to_xero`'s `try` block,
  landing in its broad `except` arm. -/
  sync_raises : Bool
  /-- The Cosmos read/replace pair inside `update_receipt_xero_info`
  succeeded (its own `except` swallows failures). -/
  xero_write_ok : Bool
  /-- The Cosmos read/replace pair inside `update_receipt_status` succeeded
  (its own `except` swallows failures). -/
  status_write_ok : Bool
  /-- The Cosmos read/replace pair inside `update_tenant_usage` succeeded
  (its own `except` swallows failures). -/
  usage_write_ok : Bool

/-- The Receipt document written by `store_receipt_data`:
`status="processing"`, `xeroInvoiceId=None`, `xeroStatus=None`. -/
def store_receipt_data : ReceiptDoc :=
  { status := "processing", xeroInvoiceId := none, xeroStatus := none }

/-- `update_receipt_xero_info`: on success the stored document gets the new
ledger fields; a storage failure is swallowed and leaves the store
unchanged. -/
def update_receipt_xero_info (ok : Bool) (d : ReceiptDoc)
    (invoice_id : Option String) (xero_status : String) : ReceiptDoc × List Event :=
  (if ok then { d with xeroInvoiceId := invoice_id, xeroStatus := some xero_status } else d,
   if ok then [Event.xeroInfoWritten invoice_id xero_status] else [])

/-- `update_receipt_status`: the call is always made on its path (first
event); the stored document changes only if the storage round-trip
succeeds (second event), failures being swallowed. -/
def update_receipt_status (ok : Bool) (d : ReceiptDoc) (status : String) :
    ReceiptDoc × List Event :=
  (if ok then { d with status := status } else d,
   Event.statusUpdateCalled status :: if ok then [Event.statusRecorded status] else [])

/-- `process_to_xero`: returns the source's boolean outcome, the Receipt
document after any `update_receipt_xero_info` write, and the emitted
events.  The guards mirror the source's Python truthiness tests
(`if not access_token`, `if not contact_id`, `if not invoice_id`). -/
def process_to_xero (env : PipelineEnv) (d : ReceiptDoc) : Bool × ReceiptDoc × List Event :=
  if env.sync_raises then
    let r := update_receipt_xero_info env.xero_write_ok d none "error"
    (false, r.1, r.2)
  else if !env.xero_configured then (false, d, [])
  else if !truthyStr env.access_token then (false, d, [])
  else if !truthyStr env.contact_result then (false, d, [])
  else if !truthyStr env.invoice_result then (false, d, [])
  else
    let r := update_receipt_xero_info env.xero_write_ok d env.invoice_result "success"
    (true, r.1, r.2)

/-- Result of one `process_receipt_blob` run: the ordered side-effect
trace, the final stored Receipt document (`none` when no Receipt was ever
persisted), every intermediate stored state of that document, and the
function's boolean return value. -/
structure RunResult where
  trace : List Event
  receipt : Option ReceiptDoc
  history : List ReceiptDoc
  success : Bool
deriving DecidableEq

/-- `process_receipt_blob`.  Early `return False` paths (blob read raised,
missing/disabled tenant, failed extraction, failed `create_item`) leave the
world untouched.  On the main path the source's statement order is:
store receipt, move blob to processing, `process_to_xero`, move to complete
(success only), `update_receipt_status`, `update_tenant_usage`,
`delete_from_uploads`.  Blob moves and the uploads delete swallow their own
storage errors and never change control flow, so they are traced at their
call sites. -/
def process_receipt_blob (env : PipelineEnv) : RunResult :=
  if !env.blob_read_ok then ⟨[], none, [], false⟩
  else
    match env.tenant with
    | none => ⟨[], none, [], false⟩
    | some t =>
      if !t.processingEnabled then ⟨[], none, [], false⟩
      else
        match extract_receipt_data_from_blob env.now_iso env.analysis with
        | none => ⟨[], none, [], false⟩
        | some _receipt_data =>
          if !env.store_ok then ⟨[], none, [], false⟩
          else
            let d0 := store_receipt_data
            let x := process_to_xero env d0
            let xero_success := x.1
            let d1 := x.2.1
            let complete_events := if xero_success then [Event.movedToComplete] else []
            let u := update_receipt_status env.status_write_ok d1
              (if xero_success then "completed" else "failed")
            let d2 := u.1
            let usage_events :=
              Event.usageUpdateCalled :: if env.usage_write_ok then [Event.usageRecorded] else []
            ⟨Event.receiptCreated :: Event.movedToProcessing :: x.2.2
                ++ complete_events ++ u.2 ++ usage_events ++ [Event.uploadDeleted],
             some d2, [d0, d1, d2], xero_success⟩

/-- The invariant of claim C4, stated on the ledger fields of a stored
Receipt document. -/
def LedgerInvariant (invoiceId : Option String) (xeroStatus : Option String) : Prop :=
  invoiceId ≠ none ↔ xeroStatus = some "success"

/-- A sample successful Document Intelligence analysis. -/
def raw_sample : RawReceiptFields :=
  { merchantName := some "Shop", vendorName := none,
    transactionDate := some "2025-01-01", total := some 110, items := [] }

/-- Concrete run: processing-enabled tenant, successful extraction and
store, no Xero integration configured, all receipt writes succeed. -/
def env_no_integration : PipelineEnv :=
  { now_iso := "2025-01-01T00:00:00", blob_read_ok := true, tenant := some ⟨true⟩,
    analysis := some raw_sample, store_ok := true, xero_configured := false,
    access_token := none, contact_result := none, invoice_result := none,
    sync_raises := false, xero_write_ok := true, status_write_ok := true,
    usage_write_ok := true }

/-- Like `env_no_integration` but the storage round-trip inside
`update_receipt_status` fails (and is swallowed by its `except`). -/
def env_status_write_fails : PipelineEnv :=
  { env_no_integration with status_write_ok := false }

/-! ## EmailIngestAdapter: `EmailReceiptProcessor` / `process_email`

Email parsing plumbing is external: an `EmailMsg` carries the already
extracted sender/recipient addresses, Message-ID, subject and the
attachment parts (those with disposition `attachment`).  The processed-set
key `sha256(message_id + from_email)` is modelled by the
`(message_id, from_email)` pair it determines.  Blob uploads and Cosmos
writes are fault-free here; `tenant_for` models `_get_tenant_by_email`
(mapping lookup plus sender authorization). -/

def SUPPORTED_EXTENSIONS : List String :=
  [".pdf", ".jpg", ".jpeg", ".png", ".bmp", ".tiff", ".heif",
   ".docx", ".xlsx", ".pptx", ".html"]

/-- `os.path.splitext(p)[1]` for a bare filename: everything from the last
dot on, except that leading dots of the basename never begin an extension
(there must be a non-dot character before the last dot). -/
def splitext_ext (s : String) : String :=
  let cs := s.toList
  match cs.reverse.findIdx? (fun c => c = '.') with
  | none => ""
  | some r =>
    let i := cs.length - 1 - r
    if (cs.take i).any (fun c => c ≠ '.') then String.mk (cs.drop i) else ""

structure EmailAttachment where
  filename : String
  content : List ℕ
  content_type : String
deriving DecidableEq

structure EmailMsg where
  from_email : String
  to_email : String
  subject : String
  message_id : String
  attachments : List EmailAttachment
deriving DecidableEq

/-- The fields of the initial Receipt record persisted by
`_create_receipt_record` that the claims are about: `status="uploaded"`,
no merchant, no total, `xeroInvoiceId=None`, `xeroStatus="pending"`
(the id, tenant, filename, size and timestamp keys are omitted). -/
structure EmailReceiptDoc where
  status : String
  merchant : Option String
  total : Option ℚ
  xeroInvoiceId : Option String
  xeroStatus : Option String
deriving DecidableEq

def create_receipt_record : EmailReceiptDoc :=
  { status := "uploaded", merchant := none, total := none,
    xeroInvoiceId := none, xeroStatus := some "pending" }

/-- External state the email path mutates: blobs uploaded to the per-tenant
uploads namespaces and the Receipt records created. -/
structure EmailWorld where
  uploaded_blobs : List (String × String)
  receipts : List EmailReceiptDoc
deriving DecidableEq

structure EmailEnv where
  tenant_for : String → String → Option String

/-- `str.lower()` (ASCII case, which covers the extension alphabet). -/
def lower_string (s : String) : String := String.mk (s.toList.map Char.toLower)

/-- `_extract_attachments`: keep parts with a (truthy) filename, a
supported extension of the lowercased filename, and nonempty decoded
content. -/
def extract_attachments (m : EmailMsg) : List EmailAttachment :=
  m.attachments.filter (fun a =>
    !(a.filename == "")
      && SUPPORTED_EXTENSIONS.contains (splitext_ext (lower_string a.filename))
      && !a.content.isEmpty)

/-- `_process_attachment`: upload the bytes into
`tenant-{tenant_id}-uploads`, then create the initial Receipt record.
(The generated `safe_filename` prefix of timestamp and sender hash is
abstracted to the original filename.) -/
def process_attachment (tenant_id : String) (a : EmailAttachment) (w : EmailWorld) :
    EmailWorld :=
  { uploaded_blobs := w.uploaded_blobs ++ [("tenant-" ++ tenant_id ++ "-uploads", a.filename)],
    receipts := w.receipts ++ [create_receipt_record] }

/-- `EmailReceiptProcessor.process_email`: returns the boolean outcome, the
instance's `processed_emails` set after the call, and the updated world. -/
def process_email (env : EmailEnv) (processed_emails : List (String × String))
    (w : EmailWorld) (m : EmailMsg) : Bool × List (String × String) × EmailWorld :=
  let email_hash := (m.message_id, m.from_email)
  if email_hash ∈ processed_emails then (true, processed_emails, w)
  else
    match env.tenant_for m.to_email m.from_email with
    | none => (false, processed_emails, w)
    | some tenant_id =>
      let attachments := extract_attachments m
      if attachments.isEmpty then (false, processed_emails, w)
      else
        let w' := attachments.foldl (fun acc a => process_attachment tenant_id a acc) w
        (decide (0 < attachments.length), processed_emails ++ [email_hash], w')

/-- The HTTP-triggered entry point `main(req)`: it constructs a NEW
`EmailReceiptProcessor()` — whose `processed_emails` set is empty — for
every request, then calls `process_email`. -/
def email_main (env : EmailEnv) (w : EmailWorld) (m : EmailMsg) : Bool × EmailWorld :=
  let r := process_email env [] w m
  (r.1, r.2.2)

def email_env_sample : EmailEnv := ⟨fun _ _ => some "t1"⟩

def email_msg_sample : EmailMsg :=
  { from_email := "alice@example.com", to_email := "t1@receipts.xeroflow.com",
    subject := "receipt", message_id := "<msg-1@example.com>",
    attachments := [{ filename := "receipt.pdf", content := [37, 80, 68, 70],
                      content_type := "application/pdf" }] }

def email_world0 : EmailWorld := ⟨[], []⟩

/-! ## LedgerSyncEngine: `create_or_get_xero_contact` -/

structure XeroContact where
  Name : String
  ContactID : String
deriving DecidableEq

/-- `str.upper()` (ASCII case). -/
def upper_string (s : String) : String := String.mk (s.toList.map Char.toUpper)

/-- `create_or_get_xero_contact`, parameterized by the outcomes of its two
HTTP calls: `search_response` is the contact list of an ok search response
(`none`: a non-ok response, after which the source falls through to the
create), and `create_response` is the id of the contact made by an ok
create response (`none`: non-ok or raised, so the function returns `None`).
The returned flag records whether the create (PUT) request was issued.
The source keeps the first contact of the search result whose upper-cased
name equals the upper-cased merchant name. -/
def create_or_get_xero_contact (search_response : Option (List XeroContact))
    (create_response : Option String) (merchant_name : String) : Option String × Bool :=
  match search_response with
  | some contacts =>
    match contacts.find? (fun c => upper_string c.Name == upper_string merchant_name) with
    | some c => (some c.ContactID, false)
    | none => (create_response, true)
  | none => (create_response, true)

/-- Modelled from the spec: the external ledger's contact search (the
`GET /Contacts` endpoint queried with the `Name.Contains("{merchant_name}")`
filter — code external to this repository, §4.3/§6 of the spec) returns the
stored contacts whose name contains the queried merchant name, matching
case-insensitively so that the "exact case-insensitive match" the spec then
selects is among the results. -/
def search_contacts (ledger : List XeroContact) (merchant_name : String) :
    List XeroContact :=
  ledger.filter (fun c =>
    decide ((upper_string merchant_name).toList <:+: (upper_string c.Name).toList))

/-- One resolution call against a ledger state, with both HTTP calls
succeeding: a create, when issued, appends a contact named after the
merchant with the fresh id `new_id`. -/
def resolve_step (ledger : List XeroContact) (merchant_name new_id : String) :
    (Option String × Bool) × List XeroContact :=
  let r := create_or_get_xero_contact (some (search_contacts ledger merchant_name))
    (some new_id) merchant_name
  (r, if r.2 then ledger ++ [⟨merchant_name, new_id⟩] else ledger)

/-- `n` successive resolution calls for the same merchant name: final
ledger plus the (result, create-issued) outcome of each call. -/
def resolve_many (merchant_name new_id : String) :
    ℕ → List XeroContact → List XeroContact × List (Option String × Bool)
  | 0, ledger => (ledger, [])
  | Nat.succ n, ledger =>
    let s := resolve_step ledger merchant_name new_id
    let rest := resolve_many merchant_name new_id n s.2
    (rest.1, s.1 :: rest.2)

/-! ## RateLimiter: `XeroRateLimiter.wait_if_needed`

Wall-clock instants are rationals.  One call is modelled by its entry
instant `now` (the `time.time()` read) and the jitter draws
`j1 ∈ [0.5, 1.5]` (`random.uniform(0.5, 1.5)`) and `j2 ∈ [0.2, 0.5]`
(`random.uniform(0.2, 0.5)`); `time.sleep` advances the clock by exactly
the requested duration, and the call returns at `now + sleep`.  Sequential
single-process use means the next call's `now` is at or after the previous
call's return instant, which the reachability relation enforces. -/

structure RateLimiterState where
  request_times : List ℚ
  last_rate_limit_time : Option ℚ

def max_requests_per_minute : ℕ := 50

/-- `wait_if_needed`: prune entries older than 60s, pick the sleep duration
(cool-down, ceiling wait of `65 - (now - request_times[0])` when the pruned
window is at the ceiling, else baseline jitter), sleep, then append `now`
(the pre-sleep timestamp, exactly as the source does).  Returns the new
state and the instant at which the call returns.  Nothing in the module
ever assigns `last_rate_limit_time`, so the cool-down branch is
unreachable from the initial state. -/
def wait_if_needed (s : RateLimiterState) (now j1 j2 : ℚ) : RateLimiterState × ℚ :=
  let pruned := s.request_times.filter (fun t => decide (now - t < 60))
  let cool_down : Bool := match s.last_rate_limit_time with
    | some tl => decide (now - tl < 120)
    | none => false
  let sleep_dur : ℚ :=
    if cool_down then 2 + j1
    else if max_requests_per_minute ≤ pruned.length then
      if 0 < 65 - (now - pruned.headI) then 65 - (now - pruned.headI) else 0
    else j2
  ({ request_times := pruned ++ [now], last_rate_limit_time := s.last_rate_limit_time },
   now + sleep_dur)

/-- Number of recorded timestamps falling in the trailing 60-second window
ending at instant `T`. -/
def window_count (l : List ℚ) (T : ℚ) : ℕ :=
  (l.filter (fun t => decide (T - t < 60))).length

/-- States reachable by sequential use from a fresh `XeroRateLimiter()`:
`fin` is the instant the last call returned (for `init`, any instant at or
before the first call). -/
inductive RLReach : RateLimiterState → ℚ → Prop
  | init (t0 : ℚ) : RLReach ⟨[], none⟩ t0
  | step {s : RateLimiterState} {fin now j1 j2 : ℚ} :
      RLReach s fin → fin ≤ now →
      1 / 2 ≤ j1 → j1 ≤ 3 / 2 → 1 / 5 ≤ j2 → j2 ≤ 1 / 2 →
      RLReach (wait_if_needed s now j1 j2).1 (wait_if_needed s now j1 j2).2

/-- Inductive invariant: the cool-down marker is never set, recorded
timestamps are sorted and no later than the current instant, and at most
50 of them lie in the trailing window. -/
def RLInv (s : RateLimiterState) (fin : ℚ) : Prop :=
  s.last_rate_limit_time = none
    ∧ s.request_times.Sorted (· ≤ ·)
    ∧ (∀ t ∈ s.request_times, t ≤ fin)
    ∧ window_count s.request_times fin ≤ 50

/-! ## AutoPaySweeper: `auto_pay_bills_function` / `process_auto_payments`

Bills are the invoices of an ok `GET /Invoices` response for the
`ACCPAY AND AUTHORISED` query; `payment_ok` gives the outcome of the
`PUT /Payments` call per invoice.  The audit record's generated id, tenant
key, payment date and timestamp are irrelevant to the claims and omitted
from `AuditEntry`. -/

structure Bill where
  InvoiceID : String
  AmountDue : ℚ
  DueDate : String
deriving DecidableEq

structure AuditEntry where
  action : String
  invoiceId : String
  amount : ℚ
deriving DecidableEq

/-- `azure_functions.py` never imports the `uuid` module, yet
`create_automatic_payment` evaluates `uuid.uuid4()` when building its audit
record; at runtime that raises `NameError: name 'uuid' is not defined`. -/
def uuid_imported : Bool := false

structure AutoPayTenant where
  xero_configured : Bool
  access_token : Option String
  bankAccountId : Option String
  bills : List Bill
  payment_ok : String → Bool

/-- `get_awaiting_payment_bills`: keep the returned invoices with
`AmountDue > 0`. -/
def get_awaiting_payment_bills (bills : List Bill) : List Bill :=
  bills.filter (fun b => decide (0 < b.AmountDue))

/-- `create_automatic_payment`: returns the payments made, the audit
entries written, and whether the call raised.  When the payment PUT
succeeds the source next builds the audit dict, whose first expression
`str(uuid.uuid4())` raises `NameError` (no `uuid` import), so
`audit_container.create_item` is never reached; the broad `except` logs and
re-raises.  When the PUT fails, the source raises before any side
effect beyond the payment attempt. -/
def create_automatic_payment (payment_ok : Bool) (bill : Bill) :
    List (String × ℚ) × List AuditEntry × Bool :=
  if payment_ok then
    if uuid_imported then
      ([(bill.InvoiceID, bill.AmountDue)],
       [{ action := "auto_payment_created", invoiceId := bill.InvoiceID,
          amount := bill.AmountDue }],
       false)
    else
      ([(bill.InvoiceID, bill.AmountDue)], [], true)
  else
    ([], [], true)

/-- `process_auto_payments` for one tenant: early returns on missing
integration, falsy token or falsy bank account; otherwise pays each
awaiting bill, catching (and merely logging) whatever
`create_automatic_payment` raises, so the per-bill loop always
continues. -/
def process_auto_payments (t : AutoPayTenant) : List (String × ℚ) × List AuditEntry :=
  if !t.xero_configured then ([], [])
  else if !truthyStr t.access_token then ([], [])
  else if !truthyStr t.bankAccountId then ([], [])
  else
    (get_awaiting_payment_bills t.bills).foldl
      (fun acc b =>
        let r := create_automatic_payment (t.payment_ok b.InvoiceID) b
        (acc.1 ++ r.1, acc.2 ++ r.2.1))
      ([], [])

/-- `auto_pay_bills_function`: sweep the auto-pay tenants; each tenant is
processed inside its own `try`, so no tenant's failure reaches another. -/
def auto_pay_bills_function (tenants : List AutoPayTenant) :
    List (String × ℚ) × List AuditEntry :=
  tenants.foldl (fun acc t =>
    let r := process_auto_payments t
    (acc.1 ++ r.1, acc.2 ++ r.2)) ([], [])

/-- Tenant A of the C9 scenario: integration and token present, but no
bank account configured. -/
def tenantA : AutoPayTenant :=
  { xero_configured := true, access_token := some "tok", bankAccountId := none,
    bills := [], payment_ok := fun _ => true }

/-- Tenant B of the C9 scenario: one awaiting bill of 25.00 whose payment
PUT succeeds. -/
def tenantB : AutoPayTenant :=
  { xero_configured := true, access_token := some "tok", bankAccountId := some "bank-1",
    bills := [{ InvoiceID := "inv-B", AmountDue := 25, DueDate := "2025-02-01" }],
    payment_ok := fun _ => true }

/-! ## Theorems -/

/-- Helper: the Receipt-document history of a run is either empty (an early
`return False` path) or the three stored states of the main path. -/
lemma history_cases (env : PipelineEnv) :
    (process_receipt_blob env).history = [] ∨
    (process_receipt_blob env).history =
      [store_receipt_data, (process_to_xero env store_receipt_data).2.1,
       (update_receipt_status env.status_write_ok (process_to_xero env store_receipt_data).2.1
         (if (process_to_xero env store_receipt_data).1 then "completed" else "failed")).1] := by
  unfold process_receipt_blob
  split
  · exact Or.inl rfl
  · split
    · exact Or.inl rfl
    · split
      · exact Or.inl rfl
      · split
        · exact Or.inl rfl
        · split
          · exact Or.inl rfl
          · exact Or.inr rfl

lemma truthyStr_some {o : Option String} (h : truthyStr o = true) : ∃ s, o = some s := by
  cases o with
  | none => simp [truthyStr] at h
  | some s => exact ⟨s, rfl⟩

lemma ledgerInv_store :
    LedgerInvariant store_receipt_data.xeroInvoiceId store_receipt_data.xeroStatus := by
  simp [store_receipt_data, LedgerInvariant]

lemma ledgerInv_xero_step (env : PipelineEnv) (d : ReceiptDoc)
    (h : LedgerInvariant d.xeroInvoiceId d.xeroStatus) :
    LedgerInvariant (process_to_xero env d).2.1.xeroInvoiceId
      (process_to_xero env d).2.1.xeroStatus := by
  unfold process_to_xero
  split
  · by_cases hxw : env.xero_write_ok
    · simp [update_receipt_xero_info, hxw, LedgerInvariant]
    · simpa [update_receipt_xero_info, hxw] using h
  · split
    · exact h
    · split
      · exact h
      · split
        · exact h
        · split
          · exact h
          · rename_i hinv
            have ht : truthyStr env.invoice_result = true := by
              revert hinv
              cases truthyStr env.invoice_result <;> simp
            obtain ⟨s, hs⟩ := truthyStr_some ht
            by_cases hxw : env.xero_write_ok
            · simp [update_receipt_xero_info, hxw, LedgerInvariant, hs]
            · simpa [update_receipt_xero_info, hxw] using h

lemma ledgerInv_status_step (ok : Bool) (d : ReceiptDoc) (st : String)
    (h : LedgerInvariant d.xeroInvoiceId d.xeroStatus) :
    LedgerInvariant (update_receipt_status ok d st).1.xeroInvoiceId
      (update_receipt_status ok d st).1.xeroStatus := by
  cases ok <;> simpa [update_receipt_status] using h

/-- C3: with processing enabled, a successful extraction and store, and no
ledger integration configured, the run ends with the Receipt in terminal
status `"failed"`, its `xeroStatus` still unset (neither `"success"` nor
`"error"`), a null `xeroInvoiceId`, and the pipeline reporting
non-success. -/
theorem no_integration_failed_status (env : PipelineEnv) (t : Tenant) (raw : RawReceiptFields)
    (h1 : env.blob_read_ok = true) (h2 : env.tenant = some t)
    (h3 : t.processingEnabled = true) (h4 : env.analysis = some raw)
    (h5 : env.store_ok = true) (h6 : env.xero_configured = false)
    (h7 : env.sync_raises = false) (h8 : env.status_write_ok = true) :
    (process_receipt_blob env).receipt
        = some { status := "failed", xeroInvoiceId := none, xeroStatus := none }
      ∧ (process_receipt_blob env).success = false := by
  simp [process_receipt_blob, h1, h2, h3, h4, h5, h6, h7, h8, process_to_xero,
    extract_receipt_data_from_blob, update_receipt_status, store_receipt_data]

theorem no_integration_failed_status_witness :
    (process_receipt_blob env_no_integration).receipt
        = some { status := "failed", xeroInvoiceId := none, xeroStatus := none }
      ∧ (process_receipt_blob env_no_integration).success = false :=
  no_integration_failed_status env_no_integration ⟨true⟩ raw_sample
    rfl rfl rfl rfl rfl rfl rfl rfl

/-- C4: every stored state a Receipt document passes through during a run —
creation by `store_receipt_data`, the `update_receipt_xero_info` writes of
`process_to_xero` (success and error arms), and the terminal
`update_receipt_status` write — satisfies: `xeroInvoiceId` is non-null iff
`xeroStatus = "success"`. -/
theorem ledger_invoice_iff_success (env : PipelineEnv) :
    ∀ d ∈ (process_receipt_blob env).history,
      LedgerInvariant d.xeroInvoiceId d.xeroStatus := by
  intro d hd
  rcases history_cases env with h | h
  · rw [h] at hd
    simp at hd
  · rw [h] at hd
    simp only [List.mem_cons, List.not_mem_nil, or_false] at hd
    rcases hd with rfl | rfl | rfl
    · exact ledgerInv_store
    · exact ledgerInv_xero_step env _ ledgerInv_store
    · exact ledgerInv_status_step _ _ _ (ledgerInv_xero_step env _ ledgerInv_store)

theorem ledger_invoice_iff_success_witness :
    LedgerInvariant store_receipt_data.xeroInvoiceId store_receipt_data.xeroStatus :=
  ledger_invoice_iff_success env_no_integration store_receipt_data (by decide)

/-- Helper: the side-effect trace of a run is either empty (an early
`return False` path, reached only when the blob read raised, the tenant was
missing or disabled, extraction failed, or the receipt store raised) or the
full main-path trace ending in the uploads delete. -/
lemma trace_cases (env : PipelineEnv) :
    (process_receipt_blob env).trace = [] ∨
    ((process_receipt_blob env).trace
        = Event.receiptCreated :: Event.movedToProcessing ::
            (process_to_xero env store_receipt_data).2.2
          ++ (if (process_to_xero env store_receipt_data).1
              then [Event.movedToComplete] else [])
          ++ (update_receipt_status env.status_write_ok
              (process_to_xero env store_receipt_data).2.1
              (if (process_to_xero env store_receipt_data).1
               then "completed" else "failed")).2
          ++ (Event.usageUpdateCalled ::
              if env.usage_write_ok then [Event.usageRecorded] else [])
          ++ [Event.uploadDeleted]
      ∧ env.blob_read_ok = true ∧ env.store_ok = true ∧ env.analysis ≠ none) := by
  unfold process_receipt_blob
  split
  · exact Or.inl rfl
  · rename_i hbr
    split
    · exact Or.inl rfl
    · split
      · exact Or.inl rfl
      · rename_i hex
        split
        · exact Or.inl rfl
        · rename_i hana
          split
          · exact Or.inl rfl
          · rename_i hst
            refine Or.inr ⟨rfl, ?_, ?_, ?_⟩
            · revert hbr
              cases env.blob_read_ok <;> simp
            · revert hst
              cases env.store_ok <;> simp
            · intro hn
              rw [hn] at hana
              simp [extract_receipt_data_from_blob] at hana

/-- Helper: `process_to_xero` only ever emits `xeroInfoWritten` events. -/
lemma xero_trace_shape (env : PipelineEnv) (d : ReceiptDoc) :
    (process_to_xero env d).2.2 = []
      ∨ ∃ i s, (process_to_xero env d).2.2 = [Event.xeroInfoWritten i s] := by
  unfold process_to_xero
  split
  · by_cases hxw : env.xero_write_ok
    · exact Or.inr ⟨none, "error", by simp [update_receipt_xero_info, hxw]⟩
    · exact Or.inl (by simp [update_receipt_xero_info, hxw])
  · split
    · exact Or.inl rfl
    · split
      · exact Or.inl rfl
      · split
        · exact Or.inl rfl
        · split
          · exact Or.inl rfl
          · by_cases hxw : env.xero_write_ok
            · exact Or.inr ⟨env.invoice_result, "success",
                by simp [update_receipt_xero_info, hxw]⟩
            · exact Or.inl (by simp [update_receipt_xero_info, hxw])

/-- C10 (amended): the uploads delete is executed only on the main path —
so only when no earlier step raised (blob read, extraction and the receipt
store all succeeded) — and there it is the final effect, strictly after the
`update_receipt_status` call with a terminal status and after the
`update_tenant_usage` call.  (Whether those two calls actually recorded
anything is a separate matter: they swallow their own storage failures, see
the counterexample.) -/
theorem upload_delete_ordering (env : PipelineEnv)
    (h : Event.uploadDeleted ∈ (process_receipt_blob env).trace) :
    env.blob_read_ok = true ∧ env.store_ok = true ∧ env.analysis ≠ none ∧
    ∃ pre, (process_receipt_blob env).trace = pre ++ [Event.uploadDeleted]
      ∧ Event.uploadDeleted ∉ pre
      ∧ (Event.statusUpdateCalled "completed" ∈ pre
          ∨ Event.statusUpdateCalled "failed" ∈ pre)
      ∧ Event.usageUpdateCalled ∈ pre := by
  rcases trace_cases env with htr | ⟨htr, hbr, hst, hana⟩
  · rw [htr] at h
    simp at h
  · refine ⟨hbr, hst, hana, ?_⟩
    refine ⟨Event.receiptCreated :: Event.movedToProcessing ::
        (process_to_xero env store_receipt_data).2.2
      ++ (if (process_to_xero env store_receipt_data).1
          then [Event.movedToComplete] else [])
      ++ (update_receipt_status env.status_write_ok
          (process_to_xero env store_receipt_data).2.1
          (if (process_to_xero env store_receipt_data).1
           then "completed" else "failed")).2
      ++ (Event.usageUpdateCalled ::
          if env.usage_write_ok then [Event.usageRecorded] else []), ?_, ?_, ?_, ?_⟩
    · rw [htr]
    · rcases xero_trace_shape env store_receipt_data with hxe | ⟨i, s, hxe⟩ <;>
        cases hxs : (process_to_xero env store_receipt_data).1 <;>
        cases hsw : env.status_write_ok <;>
        cases huw : env.usage_write_ok <;>
        simp [hxe, hxs, hsw, huw, update_receipt_status]
    · by_cases hxs : (process_to_xero env store_receipt_data).1
      · left
        simp [update_receipt_status, hxs]
      · rw [Bool.not_eq_true] at hxs
        right
        simp [update_receipt_status, hxs]
    · simp

theorem upload_delete_ordering_witness :
    env_no_integration.blob_read_ok = true ∧ env_no_integration.store_ok = true
      ∧ env_no_integration.analysis ≠ none ∧
    ∃ pre, (process_receipt_blob env_no_integration).trace = pre ++ [Event.uploadDeleted]
      ∧ Event.uploadDeleted ∉ pre
      ∧ (Event.statusUpdateCalled "completed" ∈ pre
          ∨ Event.statusUpdateCalled "failed" ∈ pre)
      ∧ Event.usageUpdateCalled ∈ pre :=
  upload_delete_ordering env_no_integration (by decide)

/-- C10 (counterexample): when the Cosmos write inside
`update_receipt_status` fails, the failure is swallowed, and the run still
deletes the source from the uploads namespace even though no terminal
status was ever recorded — refuting "the delete happens only after the
Receipt's terminal status has been recorded". -/
theorem delete_without_status_record_cex :
    Event.uploadDeleted ∈ (process_receipt_blob env_status_write_fails).trace
    ∧ Event.statusRecorded "failed" ∉ (process_receipt_blob env_status_write_fails).trace
    ∧ Event.statusRecorded "completed" ∉ (process_receipt_blob env_status_write_fails).trace := by
  decide

/-- C5 (counterexample): the email-ingest path persists an initial Receipt
record — `status="uploaded"`, no merchant, no total — at upload time,
before any extraction has run, so the system does have a path that creates
a Receipt record prior to a successful extraction. -/
theorem email_receipt_before_extraction_cex :
    (email_main email_env_sample email_world0 email_msg_sample).2.receipts
      = [{ status := "uploaded", merchant := none, total := none,
           xeroInvoiceId := none, xeroStatus := some "pending" }]
    ∧ (email_main email_env_sample email_world0 email_msg_sample).2.uploaded_blobs
      = [("tenant-t1-uploads", "receipt.pdf")] := by
  decide

/-- C5 (amended): in the blob-ingest pipeline the claim holds — when
extraction fails the run aborts with no Receipt persisted and no storage
side effects (the source bytes are untouched), and a Receipt creation in
the trace implies the extraction succeeded.  The email-ingest path,
however, creates an initial Receipt record before extraction (see the
counterexample). -/
theorem blob_receipt_requires_extraction (env : PipelineEnv) :
    (env.analysis = none →
      (process_receipt_blob env).trace = [] ∧ (process_receipt_blob env).receipt = none
        ∧ (process_receipt_blob env).history = [])
    ∧ (Event.receiptCreated ∈ (process_receipt_blob env).trace → env.analysis ≠ none) := by
  constructor
  · intro h
    unfold process_receipt_blob
    split
    · exact ⟨rfl, rfl, rfl⟩
    · split
      · exact ⟨rfl, rfl, rfl⟩
      · split
        · exact ⟨rfl, rfl, rfl⟩
        · split
          · exact ⟨rfl, rfl, rfl⟩
          · rename_i hsome
            rw [h] at hsome
            simp [extract_receipt_data_from_blob] at hsome
  · intro hmem
    rcases trace_cases env with htr | ⟨_, _, _, hana⟩
    · rw [htr] at hmem
      simp at hmem
    · exact hana

theorem blob_receipt_requires_extraction_witness :
    (process_receipt_blob { env_no_integration with analysis := none }).trace = []
      ∧ (process_receipt_blob { env_no_integration with analysis := none }).receipt = none := by
  have h := blob_receipt_requires_extraction { env_no_integration with analysis := none }
  exact ⟨(h.1 rfl).1, (h.1 rfl).2.1⟩

/-- C8 (counterexample): the HTTP entry point builds a fresh
`EmailReceiptProcessor` — with an empty `processed_emails` set — for every
request, so submitting the very same email (same Message-ID and sender) a
second time through the entry point uploads its attachment again and
creates a second Receipt record: nothing is deduplicated across
submissions. -/
theorem email_dedup_entrypoint_cex :
    (email_main email_env_sample
        (email_main email_env_sample email_world0 email_msg_sample).2
        email_msg_sample).2.uploaded_blobs.length = 2
    ∧ (email_main email_env_sample
        (email_main email_env_sample email_world0 email_msg_sample).2
        email_msg_sample).2.receipts.length = 2 := by
  decide

/-- Helper: a `process_email` call whose email hash is already in the
instance's `processed_emails` set is a no-op returning `True`. -/
lemma process_email_mem (env : EmailEnv) (ps : List (String × String))
    (w : EmailWorld) (m : EmailMsg) (h : (m.message_id, m.from_email) ∈ ps) :
    process_email env ps w m = (true, ps, w) := by
  unfold process_email
  simp [h]

/-- C8 (amended): deduplication holds only within one
`EmailReceiptProcessor` instance: once a call on that instance has returned
success for an email, submitting the same Message-ID and sender again to
the SAME instance is recognized, uploads nothing and creates no records —
the world is returned unchanged. -/
theorem email_dedup_single_instance (env : EmailEnv) (ps : List (String × String))
    (w w' : EmailWorld) (m : EmailMsg)
    (h : (process_email env ps w m).1 = true) :
    process_email env (process_email env ps w m).2.1 w' m
      = (true, (process_email env ps w m).2.1, w') := by
  have hmem : (m.message_id, m.from_email) ∈ (process_email env ps w m).2.1 := by
    by_cases hm : (m.message_id, m.from_email) ∈ ps
    · rw [process_email_mem env ps w m hm]
      exact hm
    · cases ht : env.tenant_for m.to_email m.from_email with
      | none => simp [process_email, hm, ht] at h
      | some tid =>
        by_cases ha : (extract_attachments m).isEmpty
        · simp [process_email, hm, ht, ha] at h
        · simp [process_email, hm, ht, ha]
  exact process_email_mem env _ w' m hmem

theorem email_dedup_single_instance_witness :
    process_email email_env_sample
        (process_email email_env_sample [] email_world0 email_msg_sample).2.1
        email_world0 email_msg_sample
      = (true, (process_email email_env_sample [] email_world0 email_msg_sample).2.1,
         email_world0) :=
  email_dedup_single_instance email_env_sample [] email_world0 email_world0
    email_msg_sample (by decide)

/-- Helper: when the ledger has exactly one contact whose upper-cased name
equals the merchant's, one resolution call returns its id, issues no
create, and leaves the ledger unchanged. -/
lemma resolve_step_found (ledger : List XeroContact) (c : XeroContact)
    (merchant_name new_id : String)
    (h : ledger.filter (fun x => upper_string x.Name == upper_string merchant_name) = [c]) :
    resolve_step ledger merchant_name new_id = ((some c.ContactID, false), ledger) := by
  have hc : c ∈ ledger.filter
      (fun x => upper_string x.Name == upper_string merchant_name) := by
    rw [h]
    exact List.mem_singleton_self c
  have hcl : c ∈ ledger := (List.mem_filter.mp hc).1
  have hcp : (upper_string c.Name == upper_string merchant_name) = true :=
    (List.mem_filter.mp hc).2
  have hname : upper_string c.Name = upper_string merchant_name := eq_of_beq hcp
  have hcs : c ∈ search_contacts ledger merchant_name := by
    refine List.mem_filter.mpr ⟨hcl, ?_⟩
    rw [hname]
    exact decide_eq_true (List.infix_refl _)
  cases hf : (search_contacts ledger merchant_name).find?
      (fun x => upper_string x.Name == upper_string merchant_name) with
  | none =>
    exact absurd hcp (by simpa using List.find?_eq_none.mp hf c hcs)
  | some d =>
    have hdc : d = c := by
      have hd_pred := List.find?_some hf
      have hd_led : d ∈ ledger :=
        (List.mem_filter.mp (List.mem_of_find?_eq_some hf)).1
      have : d ∈ ledger.filter
          (fun x => upper_string x.Name == upper_string merchant_name) :=
        List.mem_filter.mpr ⟨hd_led, hd_pred⟩
      rw [h] at this
      simpa using this
    simp [resolve_step, create_or_get_xero_contact, hf, hdc]

/-- C6: if the external ledger holds exactly one contact whose name equals
the merchant name case-insensitively, then any number of successive
resolution calls (with the searches succeeding) each return that contact's
id, never issue a contact-creation request, and leave the ledger
unchanged — no duplicate contact is ever created. -/
theorem contact_resolution_idempotent (ledger : List XeroContact) (c : XeroContact)
    (merchant_name new_id : String)
    (h : ledger.filter (fun x => upper_string x.Name == upper_string merchant_name) = [c]) :
    ∀ n : ℕ, resolve_many merchant_name new_id n ledger
      = (ledger, List.replicate n (some c.ContactID, false)) := by
  intro n
  induction n with
  | zero => simp [resolve_many]
  | succ k ih =>
    simp [resolve_many, resolve_step_found ledger c merchant_name new_id h, ih,
      List.replicate_succ]

theorem contact_resolution_idempotent_witness :
    resolve_many "Acme" "new-id" 2 [⟨"ACME", "c-1"⟩]
      = ([⟨"ACME", "c-1"⟩], List.replicate 2 (some "c-1", false)) :=
  contact_resolution_idempotent [⟨"ACME", "c-1"⟩] ⟨"ACME", "c-1"⟩ "Acme" "new-id"
    (by decide) 2

/-- Helper: the trailing-window count only shrinks as the window's end
moves later. -/
lemma window_count_anti {l : List ℚ} {T T' : ℚ} (h : T ≤ T') :
    window_count l T' ≤ window_count l T := by
  induction l with
  | nil => simp [window_count]
  | cons a l ih =>
    unfold window_count at ih ⊢
    rw [List.filter_cons, List.filter_cons]
    by_cases h1 : T' - a < 60
    · have h2 : T - a < 60 := by linarith
      rw [decide_eq_true h1, decide_eq_true h2, if_pos rfl, if_pos rfl]
      simp only [List.length_cons]
      omega
    · rw [decide_eq_false h1, if_neg Bool.false_ne_true]
      by_cases h2 : T - a < 60
      · rw [decide_eq_true h2, if_pos rfl]
        simp only [List.length_cons]
        omega
      · rw [decide_eq_false h2, if_neg Bool.false_ne_true]
        exact ih

/-- Helper: one `wait_if_needed` call preserves the invariant. -/
lemma RLInv_step {s : RateLimiterState} {fin : ℚ} (hInv : RLInv s fin)
    {now j1 j2 : ℚ} (hnow : fin ≤ now) (hj2 : 1 / 5 ≤ j2) :
    RLInv (wait_if_needed s now j1 j2).1 (wait_if_needed s now j1 j2).2 := by
  obtain ⟨hlast, hsort, hle, hwin⟩ := hInv
  have hsub : (s.request_times.filter (fun t => decide (now - t < 60))).length ≤ 50 :=
    le_trans (window_count_anti hnow) hwin
  have hsort' : (s.request_times.filter (fun t => decide (now - t < 60))).Sorted (· ≤ ·) :=
    hsort.filter _
  have hmem' : ∀ t ∈ s.request_times.filter (fun t => decide (now - t < 60)), t ≤ now :=
    fun t ht => le_trans (hle t (List.mem_of_mem_filter ht)) hnow
  simp only [wait_if_needed, hlast, max_requests_per_minute]
  rw [if_neg Bool.false_ne_true]
  by_cases hlen : 50 ≤ (s.request_times.filter (fun t => decide (now - t < 60))).length
  · cases hp : s.request_times.filter (fun t => decide (now - t < 60)) with
    | nil =>
      rw [hp] at hlen
      simp at hlen
    | cons hd rest =>
      rw [hp] at hsub hsort' hmem' hlen
      have hd60 : now - hd < 60 := by
        have hm : hd ∈ s.request_times.filter (fun t => decide (now - t < 60)) := by
          rw [hp]
          exact List.mem_cons_self _ _
        simpa using (List.mem_filter.mp hm).2
      have hw : 0 < 65 - (now - (hd :: rest).headI) := by
        simp only [List.headI]
        linarith
      rw [if_pos hlen, if_pos hw]
      refine ⟨rfl, ?_, ?_, ?_⟩
      · refine List.pairwise_append.mpr ⟨hsort', List.sorted_singleton _, ?_⟩
        intro x hx y hy
        rw [List.mem_singleton] at hy
        subst hy
        exact hmem' x hx
      · intro t ht
        rcases List.mem_append.mp ht with hm | hm
        · have := hmem' t hm
          simp only [List.headI] at *
          linarith
        · rw [List.mem_singleton] at hm
          subst hm
          simp only [List.headI]
          linarith
      · unfold window_count
        rw [List.cons_append, List.filter_cons]
        have hfal : (decide (now + (65 - (now - (hd :: rest).headI)) - hd < 60)) = false := by
          simp only [List.headI, decide_eq_false_iff_not, not_lt]
          linarith
        rw [hfal, if_neg Bool.false_ne_true]
        calc (List.filter (fun t =>
                decide (now + (65 - (now - (hd :: rest).headI)) - t < 60))
              (rest ++ [now])).length
            ≤ (rest ++ [now]).length := List.length_filter_le _ _
          _ = rest.length + 1 := by simp
          _ ≤ 50 := by simpa using hsub
  · rw [if_neg hlen]
    refine ⟨rfl, ?_, ?_, ?_⟩
    · refine List.pairwise_append.mpr ⟨hsort', List.sorted_singleton _, ?_⟩
      intro x hx y hy
      rw [List.mem_singleton] at hy
      subst hy
      exact hmem' x hx
    · intro t ht
      rcases List.mem_append.mp ht with hm | hm
      · have := hmem' t hm
        linarith
      · rw [List.mem_singleton] at hm
        subst hm
        linarith
    · unfold window_count
      calc (List.filter (fun t => decide (now + j2 - t < 60))
              (s.request_times.filter (fun t => decide (now - t < 60)) ++ [now])).length
          ≤ (s.request_times.filter (fun t => decide (now - t < 60)) ++ [now]).length :=
            List.length_filter_le _ _
        _ = (s.request_times.filter (fun t => decide (now - t < 60))).length + 1 := by simp
        _ ≤ 50 := by omega

/-- Helper: every reachable rate-limiter state satisfies the invariant. -/
lemma RLReach_inv {s : RateLimiterState} {fin : ℚ} (h : RLReach s fin) : RLInv s fin := by
  induction h with
  | init t0 =>
    exact ⟨rfl, List.sorted_nil, by simp, by simp [window_count]⟩
  | step hr hle hj1a hj1b hj2a hj2b ih =>
    exact RLInv_step ih hle hj2a

/-- C7: under sequential single-process use, at every instant `T` from the
moment a reachable state was produced onward, at most 50 of the recorded
call timestamps lie in the trailing 60-second window ending at `T`. -/
theorem rate_limiter_window_bound {s : RateLimiterState} {fin : ℚ}
    (h : RLReach s fin) : ∀ T : ℚ, fin ≤ T → window_count s.request_times T ≤ 50 := by
  intro T hT
  exact le_trans (window_count_anti hT) (RLReach_inv h).2.2.2

theorem rate_limiter_window_bound_witness :
    window_count ((wait_if_needed ⟨[], none⟩ 0 1 (1 / 4)).1).request_times 30 ≤ 50 := by
  have h2 : RLReach (wait_if_needed ⟨[], none⟩ 0 1 (1 / 4)).1
      (wait_if_needed ⟨[], none⟩ 0 1 (1 / 4)).2 :=
    RLReach.step (RLReach.init 0) (by norm_num) (by norm_num) (by norm_num)
      (by norm_num) (by norm_num)
  apply rate_limiter_window_bound h2
  simp [wait_if_needed, max_requests_per_minute]
  norm_num

/-- C1 (counterexample): for the extracted total `t = 0.13 > 0` the stored
tax is `0.013 = t × 0.10` unrounded, which differs from the claimed
`round(t × 0.10, 2) = 0.01`: the code never rounds the derived tax. -/
theorem tax_unrounded_cex :
    extract_receipt_data_from_blob "2025-01-01" (some ⟨none, none, none, some (13 / 100), []⟩)
      = some { merchant := "Unknown Vendor", date := "2025-01-01",
               total := 13 / 100, tax := 13 / 1000, items := [] }
    ∧ (0 : ℚ) < 13 / 100
    ∧ (13 : ℚ) / 1000 ≠ round2 ((13 / 100) * (1 / 10)) := by
  refine ⟨?_, by norm_num, ?_⟩
  · simp only [extract_receipt_data_from_blob, normalize_fields]
    norm_num
  · have h : round2 ((13 / 100 : ℚ) * (1 / 10)) = 1 / 100 := by
      unfold round2
      norm_num [round_eq]
    rw [h]
    norm_num

/-- C1 (amended): the stored tax equals exactly `total × 0.10` when
`total > 0` and `0` otherwise, with no rounding; in particular
`total = 110.00` yields `tax = 11.00`. -/
theorem tax_derivation_amended :
    (∀ (now_iso : String) (f : RawReceiptFields),
      (extract_receipt_data_from_blob now_iso (some f)).map ReceiptData.tax
        = some (if 0 < f.total.getD 0 then f.total.getD 0 * (1 / 10) else 0))
    ∧ (extract_receipt_data_from_blob "2025-01-01"
        (some ⟨none, none, none, some 110, []⟩)).map ReceiptData.tax = some 11 := by
  constructor
  · intro now_iso f
    simp [extract_receipt_data_from_blob, normalize_fields]
  · simp only [extract_receipt_data_from_blob, normalize_fields, Option.getD, Option.map]
    norm_num

/-- C2 (counterexample): a raw line item carrying a description
(`"Coffee"`, truthy) but no amount is dropped by the code — the normalized
item list is empty — whereas the claim says such an item is kept. -/
theorem item_desc_only_dropped_cex :
    (extract_receipt_data_from_blob "2025-01-01"
        (some ⟨none, none, none, some 5, [⟨some "Coffee", none, none⟩]⟩)).map ReceiptData.items
      = some []
    ∧ truthyStr (some "Coffee") = true := by
  constructor
  · simp [extract_receipt_data_from_blob, normalize_fields, build_item_data, keep_item,
      truthyRat]
  · rfl

/-- C2 (amended): a normalized line item is kept iff it originates from a
raw item and has BOTH a truthy (present, nonempty) description and a truthy
(present, nonzero) amount; an item missing either one is dropped. -/
theorem line_item_kept_iff (now_iso : String) (f : RawReceiptFields) (d : ItemData) :
    d ∈ (normalize_fields now_iso f).items ↔
      ((∃ r ∈ f.items, build_item_data r = d)
        ∧ truthyStr d.description = true ∧ truthyRat d.unit_amount = true) := by
  simp only [normalize_fields, List.mem_filter, List.mem_map, keep_item, Bool.and_eq_true]

/-- C9 (code bug): sweeping the two-tenant scenario — tenant A without a
bank account, tenant B with one awaiting 25.00 bill whose payment succeeds
— creates B's payment and NO audit entry at all (the claim and spec expect
exactly one), because the missing `uuid` import makes
`create_automatic_payment` raise before `audit_container.create_item`;
tenant A contributes nothing and its outcome does not disturb B. -/
theorem auto_pay_missing_uuid_behavior :
    auto_pay_bills_function [tenantA, tenantB] = ([("inv-B", 25)], [])
    ∧ (create_automatic_payment true
        { InvoiceID := "inv-B", AmountDue := 25, DueDate := "2025-02-01" }).2.2 = true
    ∧ uuid_imported = false := by
  refine ⟨rfl, rfl, rfl⟩
